import Mathlib

/-!
Shallow embedding of the Simple Books API proxy (`src/app.py`, FastAPI).

The HTTP framework (routing, JSON parsing, header extraction) is treated as an
external collaborator: each handler below is a pure Lean function taking the
already-parsed pieces of the request (the `Authorization` header value, the
parsed JSON body as an association list, query parameters as `Option`s) plus
the current contents of the three stores (books, orders, api clients), and
returning the response together with the new store contents and a flag saying
whether the store was written back to disk (`save_orders` / `save_api_clients`
called).  The per-request reload of the stores performed by the middleware and
by `load_api_clients()` is modelled by the store arguments themselves: the
argument IS the freshly loaded state.

JSON request values are modelled by the scalar fragment (`null`, booleans,
integers, strings); no claim depends on compound (array/object) field values.
Python truthiness (`if not x`) and Python `==` (including `True == 1`) are
modelled explicitly, since the handlers use them on request fields.

The `uuid.uuid4()` calls are nondeterministic; each handler that generates an
identifier takes the generated UUID string as an extra oracle argument.
-/

deriving instance DecidableEq for Except

namespace SimpleBooks

/-- A scalar JSON value as parsed from a request body.  `null` also stands for
Python `None`, the result of `dict.get` on a missing key. -/
inductive JVal where
  | null
  | bool (b : Bool)
  | num (n : Int)
  | str (s : String)
deriving Repr, DecidableEq

/-- Python truthiness of a scalar JSON value: `None`, `False`, `0` and `""`
are falsy, everything else is truthy (mirrors `if not x:` in the handlers). -/
def truthy : JVal → Bool
  | .null => false
  | .bool b => b
  | .num n => n != 0
  | .str s => s != ""

/-- Python `==` on scalar JSON values.  In Python `True == 1` and
`False == 0`; values of different (non bool/int) types compare unequal. -/
def pyEq : JVal → JVal → Bool
  | .null, .null => true
  | .bool a, .bool b => a == b
  | .bool a, .num n => (if a then (1 : Int) else 0) == n
  | .num n, .bool b => n == (if b then (1 : Int) else 0)
  | .num a, .num b => a == b
  | .str a, .str b => a == b
  | _, _ => false

/-- A parsed JSON object body: association list from keys to scalar values.
A parsed Python dict has distinct keys. -/
def JBody : Type := List (String × JVal)

/-- `data.get(k)`: value of key `k`, or `null` (Python `None`) when absent. -/
def jget (d : JBody) (k : String) : JVal :=
  match d.find? (fun kv => kv.fst == k) with
  | some kv => kv.snd
  | none => .null

/-- A catalog book record.  `id`, `name`, `type`, `available` are the basic
fields; `extra` holds any extended fields (author, isbn, price, stock, ...)
as raw key/value pairs.  In `submit_order` the code reads
`book.get("available", False)`; a record missing the key behaves as
`available = false`, which is folded into the total field here. -/
structure Book where
  id : Int
  name : String
  type : String
  available : Bool
  extra : List (String × JVal) := []
deriving Repr, DecidableEq

/-- The projection of a book returned by `GET /books`: exactly the four basic
fields `{id, name, type, available}` and nothing else (this type has no
`extra` component, so extended fields cannot appear in a `BasicBook`). -/
structure BasicBook where
  id : Int
  name : String
  type : String
  available : Bool
deriving Repr, DecidableEq

/-- `{k: b[k] for k in ("id", "name", "type", "available")}`. -/
def projectBasic (b : Book) : BasicBook :=
  { id := b.id, name := b.name, type := b.type, available := b.available }

/-- An order record `{id, bookId, customerName}` as stored in the orders
dict.  `bookId` and `customerName` are stored exactly as submitted. -/
structure Order where
  id : String
  bookId : JVal
  customerName : JVal
deriving Repr, DecidableEq

/-- A registered API client `{token, clientEmail, clientName}`. -/
structure Client where
  token : String
  clientEmail : JVal
  clientName : JVal
deriving Repr, DecidableEq

/-- The response of a handler: either a success with an HTTP status code and
a payload, a `JSONResponse(status_code, content={"error": msg})`, or an
`HTTPException(status_code, detail=msg)` (whose body is `{"detail": msg}`). -/
inductive HResult (α : Type) where
  | success (code : Nat) (val : α)
  | jsonErr (code : Nat) (error : String)
  | excErr (code : Nat) (detail : String)
deriving Repr, DecidableEq

/-- Result of an order-store handler: the response, the resulting order
collection, and whether `save_orders` was called (the full collection is
persisted exactly when `saved = true`). -/
structure OrdersStep (α : Type) where
  resp : HResult α
  orders : List Order
  saved : Bool
deriving Repr, DecidableEq

/-- Result of the client-registration handler: the response, the resulting
client registry, and whether `save_api_clients` was called. -/
structure ClientsStep (α : Type) where
  resp : HResult α
  clients : List Client
  saved : Bool
deriving Repr, DecidableEq

/-! ### Dict operations

The orders store is a Python dict keyed by order id, the client registry a
dict keyed by token.  Both are modelled as lists of records; lookup finds the
first record with the key, assignment replaces the first record with the key
(or appends), deletion removes the record with the key.  Dicts built by the
loaders have distinct keys, so "first" is unambiguous there. -/

/-- `orders.get(i)` / `i in orders`. -/
def ordGet (l : List Order) (i : String) : Option Order :=
  l.find? (fun o => o.id == i)

/-- `orders[o.id] = o`: replace the entry with that id, or append. -/
def ordSet : List Order → Order → List Order
  | [], o => [o]
  | x :: xs, o => if x.id == o.id then o :: xs else x :: ordSet xs o

/-- `del orders[i]`. -/
def ordDel : List Order → String → List Order
  | [], _ => []
  | x :: xs, i => if x.id == i then xs else x :: ordDel xs i

/-- `clients[c.token] = c`: replace the entry with that token, or append. -/
def clientSet : List Client → Client → List Client
  | [], c => [c]
  | x :: xs, c => if x.token == c.token then c :: xs else x :: clientSet xs c

/-- `token in clients` lookup by token key. -/
def clientGet (l : List Client) (t : String) : Option Client :=
  l.find? (fun c => c.token == t)

/-! ### Python string operations

The handlers use `str.startswith`, `str.split(" ", 1)`, `str.strip()` and
slicing; these are embedded here on the character list (`String.data`) level
so they evaluate on concrete inputs. -/

/-- `s.startswith(p)`. -/
def pyStartswith (s p : String) : Bool :=
  s.data.take p.data.length == p.data

/-- Python whitespace as stripped by `str.strip()`. -/
def pyIsSpace (c : Char) : Bool :=
  c == ' ' || c == '\t' || c == '\n' || c == '\r' || c == '\x0b' || c == '\x0c'

/-- `s.strip()`: remove leading and trailing whitespace. -/
def pyStrip (s : String) : String :=
  ⟨((s.data.dropWhile pyIsSpace).reverse.dropWhile pyIsSpace).reverse⟩

/-- `s.split(" ", 1)[1]`: everything after the first space.  The handlers
only reach this after `s.startswith("Bearer ")`, so a first space exists. -/
def pySplitOnceTail (s : String) : String :=
  ⟨(s.data.dropWhile (fun c => !(c == ' '))).tail⟩

/-- `s[:n]`: the first `n` characters. -/
def pyTake (s : String) (n : Nat) : String :=
  ⟨s.data.take n⟩

/-! ### Handlers -/

/-- `allowed_types = {"fiction", "non-fiction"}`. -/
def allowed_types : List String := ["fiction", "non-fiction"]

/-- `if type and type not in allowed_types:` — note that an empty string is
falsy in Python, so a present-but-empty `type` does NOT trigger the check. -/
def typeInvalid : Option String → Bool
  | some t => (t != "") && !(allowed_types.contains t)
  | none => false

/-- `if limit is not None: if not (1 <= limit <= 20):`. -/
def limitInvalid : Option Int → Bool
  | some l => !(decide (1 ≤ l) && decide (l ≤ 20))
  | none => false

/-- `filtered = books; if type: filtered = [b for b in filtered if b["type"] == type]`
— a present-but-empty `type` is falsy and skips the filter. -/
def filterByType (type? : Option String) (books : List Book) : List Book :=
  match type? with
  | some t => if t != "" then books.filter (fun b => b.type == t) else books
  | none => books

/-- `if limit: filtered = filtered[:limit]` — `limit` is falsy when `None`
or 0 (0 cannot survive validation). -/
def truncateByLimit (limit? : Option Int) (books : List Book) : List Book :=
  match limit? with
  | some l => if l != 0 then books.take l.toNat else books
  | none => books

/-- `GET /books` (`get_books` in `src/app.py`): validates `type` and `limit`,
filters by type, truncates to `limit`, and projects each book to its basic
fields.  `type? = none` models an absent query parameter. -/
def get_books (type? : Option String) (limit? : Option Int) (books : List Book) :
    HResult (List BasicBook) :=
  if typeInvalid type? then
    .jsonErr 400
      "Invalid value for query parameter 'type'. Must be one of: fiction, non-fiction."
  else if limitInvalid limit? then
    .jsonErr 400
      "Invalid value for query parameter 'limit'. Must be between 1 and 20."
  else
    .success 200 ((truncateByLimit limit? (filterByType type? books)).map projectBasic)

/-- `GET /books/{book_id}` (`get_book`): linear search by id, 404 if absent. -/
def get_book (book_id : Int) (books : List Book) : HResult Book :=
  match books.find? (fun b => b.id == book_id) with
  | some book => .success 200 book
  | none => .excErr 404 "Book not found"

/-- `POST /api-clients/` (`register_client`): validates the two fields,
checks email uniqueness against the freshly reloaded registry, stores the new
client under a fresh UUID token and persists the registry.  The success
payload `{"accessToken": token}` is represented by the token string; FastAPI
returns it with the default status code 200.  `uuidTok` is the oracle value
of `str(uuid.uuid4())`. -/
def register_client (clients : List Client) (body : JBody) (uuidTok : String) :
    ClientsStep String :=
  let client_email := jget body "clientEmail"
  let client_name := jget body "clientName"
  if !truthy client_email || !truthy client_name then
    { resp := .excErr 400 "clientEmail and clientName required.",
      clients := clients, saved := false }
  else if clients.any (fun c => pyEq c.clientEmail client_email) then
    { resp := .excErr 409 "API client already registered.",
      clients := clients, saved := false }
  else
    let client_obj : Client :=
      { token := uuidTok, clientEmail := client_email, clientName := client_name }
    { resp := .success 200 uuidTok,
      clients := clientSet clients client_obj, saved := true }

/-- The authentication prelude shared verbatim by all five order handlers:
missing header or wrong scheme → 401 "Authorization header required."; else
the token is `authorization.split(" ", 1)[1].strip()` (= everything after
`"Bearer "`, stripped), and an unknown token → 401 "Invalid or missing
token.".  `authorization = none` models a missing header; an empty header
value is falsy in Python and takes the same first branch as a wrong scheme. -/
def authCheck (authorization : Option String) (clients : List Client) :
    Except (Nat × String) String :=
  match authorization with
  | none => .error (401, "Authorization header required.")
  | some a =>
    if !(pyStartswith a "Bearer ") then
      .error (401, "Authorization header required.")
    else
      let token := pyStrip (pySplitOnceTail a)
      match clientGet clients token with
      | some _ => .ok token
      | none => .error (401, "Invalid or missing token.")

/-- `POST /orders` (`submit_order`): authenticate; `body = none` models a
request body that fails JSON parsing (caught, → 400 bookId message); validate
`bookId` and `customerName` by truthiness; look the book up in the catalog by
Python `==` on ids; reject a missing or unavailable book; otherwise store
`{id, bookId, customerName}` under the fresh id `str(uuid.uuid4())[:20]`,
persist, and answer `201 {"created": true, "orderId": id}` (payload
represented by the order id string). -/
def submit_order (authorization : Option String) (clients : List Client)
    (books : List Book) (orders : List Order) (body : Option JBody)
    (uuidStr : String) : OrdersStep String :=
  match authCheck authorization clients with
  | .error e => { resp := .excErr e.fst e.snd, orders := orders, saved := false }
  | .ok _ =>
    match body with
    | none =>
      { resp := .jsonErr 400 "Invalid or missing bookId.",
        orders := orders, saved := false }
    | some data =>
      let book_id := jget data "bookId"
      let customer_name := jget data "customerName"
      if !truthy book_id then
        { resp := .jsonErr 400 "Invalid or missing bookId.",
          orders := orders, saved := false }
      else if !truthy customer_name then
        { resp := .jsonErr 400 "Invalid or missing customerName.",
          orders := orders, saved := false }
      else
        match books.find? (fun b => pyEq (.num b.id) book_id) with
        | none =>
          { resp := .excErr 404 "Book not found.",
            orders := orders, saved := false }
        | some book =>
          if !book.available then
            { resp := .jsonErr 404 "This Book is not in stock.Try ordering later.",
              orders := orders, saved := false }
          else
            let order_id := pyTake uuidStr 20
            let order : Order :=
              { id := order_id, bookId := book_id, customerName := customer_name }
            { resp := .success 201 order_id,
              orders := ordSet orders order, saved := true }

/-- `GET /orders` (`get_orders`): authenticate, then return
`list(orders.values())`. -/
def get_orders (authorization : Option String) (clients : List Client)
    (orders : List Order) : HResult (List Order) :=
  match authCheck authorization clients with
  | .error e => .excErr e.fst e.snd
  | .ok _ => .success 200 orders

/-- `GET /orders/{order_id}` (`get_order`): authenticate; 404 if the id is
absent (a stored order dict is nonempty, hence truthy, so `if not order:` is
exactly the absence test); else return the order with 200. -/
def get_order (order_id : String) (authorization : Option String)
    (clients : List Client) (orders : List Order) : HResult Order :=
  match authCheck authorization clients with
  | .error e => .excErr e.fst e.snd
  | .ok _ =>
    match ordGet orders order_id with
    | none => .excErr 404 "Order not found."
    | some order => .success 200 order

/-- `PATCH /orders/{order_id}` (`update_order`): authenticate; 404 if absent;
if the body's `customerName` is truthy, overwrite that one field in place and
persist; always return the (possibly unchanged) order with 200.  The body is
parsed without a try/except in the source, so `body` here is the parsed
object of a well-formed request. -/
def update_order (order_id : String) (authorization : Option String)
    (clients : List Client) (orders : List Order) (body : JBody) :
    OrdersStep Order :=
  match authCheck authorization clients with
  | .error e => { resp := .excErr e.fst e.snd, orders := orders, saved := false }
  | .ok _ =>
    match ordGet orders order_id with
    | none =>
      { resp := .excErr 404 "Order not found.", orders := orders, saved := false }
    | some order =>
      let customer_name := jget body "customerName"
      if truthy customer_name then
        let order2 : Order := { order with customerName := customer_name }
        { resp := .success 200 order2, orders := ordSet orders order2, saved := true }
      else
        { resp := .success 200 order, orders := orders, saved := false }

/-- `DELETE /orders/{order_id}` (`delete_order`): authenticate; 404 if the id
is absent; else delete, persist, and answer
`JSONResponse(status_code=204, content={})` — status 204 whose content is the
empty JSON object, represented here as the empty association list. -/
def delete_order (order_id : String) (authorization : Option String)
    (clients : List Client) (orders : List Order) : OrdersStep JBody :=
  match authCheck authorization clients with
  | .error e => { resp := .excErr e.fst e.snd, orders := orders, saved := false }
  | .ok _ =>
    if (ordGet orders order_id).isNone then
      { resp := .excErr 404 "Order not found.", orders := orders, saved := false }
    else
      { resp := .success 204 [], orders := ordDel orders order_id, saved := true }

/-! ### Lemmas about the dict operations -/

/-- Python `==` on scalar JSON values is reflexive. -/
theorem pyEq_refl (v : JVal) : pyEq v v = true := by
  cases v <;> simp [pyEq]

/-- Looking up the id of a freshly assigned order finds exactly that order. -/
theorem ordGet_ordSet_self (l : List Order) (o : Order) :
    ordGet (ordSet l o) o.id = some o := by
  induction l with
  | nil => simp [ordGet, ordSet, List.find?]
  | cons x xs ih =>
    by_cases h : x.id = o.id
    · simp [ordSet, ordGet, List.find?, h]
    · simp only [ordSet, ordGet, List.find?] at *
      simp [h, ih]

/-- A freshly assigned order is in the collection. -/
theorem mem_ordSet_self (l : List Order) (o : Order) : o ∈ ordSet l o := by
  induction l with
  | nil => simp [ordSet]
  | cons x xs ih =>
    by_cases h : x.id = o.id
    · simp [ordSet, h]
    · simp only [ordSet]
      simp [h, List.mem_cons, ih]

/-- Assigning an order does not disturb lookups at other ids. -/
theorem ordGet_ordSet_ne (l : List Order) (o : Order) (j : String) (h : j ≠ o.id) :
    ordGet (ordSet l o) j = ordGet l j := by
  have hoj : (o.id == j) = false := beq_eq_false_iff_ne.mpr (fun hc => h hc.symm)
  induction l with
  | nil => simp [ordGet, ordSet, List.find?, hoj]
  | cons x xs ih =>
    simp only [ordSet]
    by_cases hx : x.id = o.id
    · rw [if_pos (beq_iff_eq.mpr hx)]
      have hxj : (x.id == j) = false :=
        beq_eq_false_iff_ne.mpr (fun hc => h (hx ▸ hc).symm)
      simp only [ordGet, List.find?, hoj, hxj]
    · rw [if_neg (by simp [beq_eq_false_iff_ne.mpr hx])]
      simp only [ordGet, List.find?] at ih ⊢
      cases hxj : (x.id == j) with
      | true => rfl
      | false => exact ih

/-- A successful lookup returns an order carrying the looked-up id. -/
theorem ordGet_id (l : List Order) (i : String) (o : Order)
    (h : ordGet l i = some o) : o.id = i := by
  induction l with
  | nil => simp [ordGet, List.find?] at h
  | cons x xs ih =>
    simp only [ordGet, List.find?] at h ih
    by_cases hx : x.id = i
    · simp [beq_iff_eq.mpr hx] at h
      rw [← h, hx]
    · simp [beq_eq_false_iff_ne.mpr hx] at h
      exact ih h

/-- Deleting an id from a collection with distinct ids makes it absent. -/
theorem ordGet_ordDel_self (l : List Order) (i : String)
    (h : (l.map Order.id).Nodup) : ordGet (ordDel l i) i = none := by
  induction l with
  | nil => simp [ordDel, ordGet, List.find?]
  | cons x xs ih =>
    simp only [List.map_cons, List.nodup_cons] at h
    by_cases hx : x.id = i
    · simp only [ordDel, if_pos (beq_iff_eq.mpr hx)]
      subst hx
      simp only [ordGet]
      rw [List.find?_eq_none]
      intro o ho
      exact fun hb => h.1 (List.mem_map.mpr ⟨o, ho, beq_iff_eq.mp hb⟩)
    · simp only [ordDel, if_neg (beq_eq_false_iff_ne.mpr hx ▸ Bool.false_ne_true)]
      simp only [ordGet, List.find?, beq_eq_false_iff_ne.mpr hx]
      simp only [ordGet] at ih
      simp [ih h.2]

/-- Assigning a genuinely fresh order id appends the order. -/
theorem ordSet_of_fresh (l : List Order) (o : Order)
    (h : o.id ∉ l.map Order.id) : ordSet l o = l ++ [o] := by
  induction l with
  | nil => simp [ordSet]
  | cons x xs ih =>
    simp only [List.map_cons, List.mem_cons] at h
    push_neg at h
    simp only [ordSet, beq_eq_false_iff_ne.mpr (fun hc => h.1 hc.symm)]
    rw [ih h.2]
    simp

/-- A freshly assigned client is in the registry. -/
theorem mem_clientSet_self (l : List Client) (c : Client) : c ∈ clientSet l c := by
  induction l with
  | nil => simp [clientSet]
  | cons x xs ih =>
    by_cases h : x.token = c.token
    · simp [clientSet, h]
    · simp only [clientSet]
      simp [h, List.mem_cons, ih]

/-- `authCheck` rejects a missing header and any non-Bearer header. -/
theorem authCheck_missing (a : Option String) (clients : List Client)
    (h : ∀ s, a = some s → pyStartswith s "Bearer " = false) :
    authCheck a clients = .error (401, "Authorization header required.") := by
  cases a with
  | none => rfl
  | some s => simp [authCheck, h s rfl]

/-- `authCheck` rejects a Bearer header whose token is not registered. -/
theorem authCheck_unknown (s : String) (clients : List Client)
    (h1 : pyStartswith s "Bearer " = true)
    (h2 : clientGet clients (pyStrip (pySplitOnceTail s)) = none) :
    authCheck (some s) clients = .error (401, "Invalid or missing token.") := by
  simp [authCheck, h1, h2]

/-! ### Claim theorems -/

/-- C10: an authenticated `POST /orders` whose body parses but carries a falsy
`bookId` (such as the integer 0) is answered 400
`{"error": "Invalid or missing bookId."}` before the catalog is consulted: the
result is the same for every catalog, no order is created and nothing is
persisted, so `bookId = 0` yields 400 rather than 404 even though the field is
present. -/
theorem c10_falsy_bookid_yields_400
    (a : Option String) (clients : List Client) (books : List Book)
    (orders : List Order) (data : JBody) (u tok : String)
    (hauth : authCheck a clients = .ok tok)
    (hb : truthy (jget data "bookId") = false) :
    submit_order a clients books orders (some data) u =
      { resp := .jsonErr 400 "Invalid or missing bookId.",
        orders := orders, saved := false } ∧
    ∀ books2 : List Book,
      submit_order a clients books2 orders (some data) u =
        submit_order a clients books orders (some data) u := by
  have key : ∀ bks : List Book,
      submit_order a clients bks orders (some data) u =
        { resp := .jsonErr 400 "Invalid or missing bookId.",
          orders := orders, saved := false } := by
    intro bks
    simp [submit_order, hauth, hb]
  exact ⟨key books, fun b2 => (key b2).trans (key books).symm⟩

/-- C10 witness: concrete instance with `bookId = 0` in the body. -/
theorem c10_falsy_bookid_yields_400_witness :
    submit_order (some "Bearer tok1") [⟨"tok1", .str "e", .str "n"⟩]
        [⟨1, "A", "fiction", true, []⟩] []
        (some [("bookId", .num 0), ("customerName", .str "X")]) "u" =
      { resp := .jsonErr 400 "Invalid or missing bookId.",
        orders := [], saved := false } :=
  (c10_falsy_bookid_yields_400 (some "Bearer tok1") [⟨"tok1", .str "e", .str "n"⟩]
    [⟨1, "A", "fiction", true, []⟩] []
    [("bookId", .num 0), ("customerName", .str "X")] "u" "tok1"
    (by decide) (by decide)).1

/-- C3: an authenticated `POST /orders` whose `bookId` and `customerName` pass
the missing-field validation (are truthy) is answered 404
`"Book not found."` when no catalog book has that id, and 404
`"This Book is not in stock.Try ordering later."` when the book exists with
`available = false`; in both cases the order collection is unchanged and not
persisted. -/
theorem c3_submit_book_errors
    (a : Option String) (clients : List Client) (orders : List Order)
    (data : JBody) (u tok : String)
    (hauth : authCheck a clients = .ok tok)
    (hb : truthy (jget data "bookId") = true)
    (hc : truthy (jget data "customerName") = true) :
    (∀ books : List Book,
      books.find? (fun b => pyEq (.num b.id) (jget data "bookId")) = none →
      submit_order a clients books orders (some data) u =
        { resp := .excErr 404 "Book not found.",
          orders := orders, saved := false }) ∧
    (∀ (books : List Book) (book : Book),
      books.find? (fun b => pyEq (.num b.id) (jget data "bookId")) = some book →
      book.available = false →
      submit_order a clients books orders (some data) u =
        { resp := .jsonErr 404 "This Book is not in stock.Try ordering later.",
          orders := orders, saved := false }) := by
  constructor
  · intro books hfind
    simp [submit_order, hauth, hb, hc, hfind]
  · intro books book hfind hav
    simp [submit_order, hauth, hb, hc, hfind, hav]

/-- C3 witness: book id 9 is not in the catalog; book 3 exists but is
unavailable. -/
theorem c3_submit_book_errors_witness :
    (submit_order (some "Bearer tok1") [⟨"tok1", .str "e", .str "n"⟩]
        [⟨3, "C", "fiction", false, []⟩] []
        (some [("bookId", .num 9), ("customerName", .str "X")]) "u" =
      { resp := .excErr 404 "Book not found.", orders := [], saved := false }) ∧
    (submit_order (some "Bearer tok1") [⟨"tok1", .str "e", .str "n"⟩]
        [⟨3, "C", "fiction", false, []⟩] []
        (some [("bookId", .num 3), ("customerName", .str "X")]) "u" =
      { resp := .jsonErr 404 "This Book is not in stock.Try ordering later.",
        orders := [], saved := false }) := by
  constructor
  · exact (c3_submit_book_errors (some "Bearer tok1") [⟨"tok1", .str "e", .str "n"⟩]
      [] [("bookId", .num 9), ("customerName", .str "X")] "u" "tok1"
      (by decide) (by decide) (by decide)).1 [⟨3, "C", "fiction", false, []⟩] (by decide)
  · exact (c3_submit_book_errors (some "Bearer tok1") [⟨"tok1", .str "e", .str "n"⟩]
      [] [("bookId", .num 3), ("customerName", .str "X")] "u" "tok1"
      (by decide) (by decide) (by decide)).2 [⟨3, "C", "fiction", false, []⟩]
      ⟨3, "C", "fiction", false, []⟩ (by decide) (by decide)

/-- C9 counterexample: the code never checks the generated id against the
existing order ids.  With an existing order whose id happens to equal the
first 20 characters of the freshly generated UUID, the submission still
succeeds (HTTP 201) and returns an order id that is NOT unique among the
order ids existing at the time of creation — the existing order is silently
overwritten (the collection does not grow). -/
theorem c9_collision_counterexample :
    (submit_order (some "Bearer tok1") [⟨"tok1", .str "e", .str "n"⟩]
        [⟨1, "A", "fiction", true, []⟩]
        [⟨"123e4567-e89b-12d3-a", .num 1, .str "Bob"⟩]
        (some [("bookId", .num 1), ("customerName", .str "Ann")])
        "123e4567-e89b-12d3-a456-426614174000").resp =
      .success 201 "123e4567-e89b-12d3-a" ∧
    "123e4567-e89b-12d3-a" ∈
      ([⟨"123e4567-e89b-12d3-a", .num 1, .str "Bob"⟩] : List Order).map Order.id ∧
    (submit_order (some "Bearer tok1") [⟨"tok1", .str "e", .str "n"⟩]
        [⟨1, "A", "fiction", true, []⟩]
        [⟨"123e4567-e89b-12d3-a", .num 1, .str "Bob"⟩]
        (some [("bookId", .num 1), ("customerName", .str "Ann")])
        "123e4567-e89b-12d3-a456-426614174000").orders =
      [⟨"123e4567-e89b-12d3-a", .num 1, .str "Ann"⟩] := by
  refine ⟨?_, ?_, ?_⟩ <;> decide

/-- C9 (amended): on every successful submission the order id equals the
first 20 characters of the server-generated UUID string — for every request
body, so it is never taken from the body — and has length 20 (a UUID string
has 36 characters); it is unique among the order ids existing at creation
time ONLY when the truncated UUID does not collide with an existing id, in
which case the new order is appended and nothing is overwritten.  The code
performs no uniqueness check, so uniqueness is not guaranteed on collision
(see the counterexample). -/
theorem c9_id_generation_amended
    (a : Option String) (clients : List Client) (books : List Book)
    (orders : List Order) (data : JBody) (u tok : String) (book : Book)
    (hauth : authCheck a clients = .ok tok)
    (hb : truthy (jget data "bookId") = true)
    (hc : truthy (jget data "customerName") = true)
    (hfind : books.find? (fun b => pyEq (.num b.id) (jget data "bookId")) = some book)
    (havail : book.available = true)
    (hlen : u.length = 36) :
    (submit_order a clients books orders (some data) u).resp =
      .success 201 (pyTake u 20) ∧
    (pyTake u 20).length = 20 ∧
    (pyTake u 20 ∉ orders.map Order.id →
      (submit_order a clients books orders (some data) u).orders =
        orders ++ [⟨pyTake u 20, jget data "bookId", jget data "customerName"⟩]) := by
  have hrun : submit_order a clients books orders (some data) u =
      { resp := .success 201 (pyTake u 20),
        orders := ordSet orders ⟨pyTake u 20, jget data "bookId", jget data "customerName"⟩,
        saved := true } := by
    simp [submit_order, hauth, hb, hc, hfind, havail]
  refine ⟨by rw [hrun], ?_, ?_⟩
  · have hd : u.data.length = 36 := hlen
    show (u.data.take 20).length = 20
    simp [List.length_take, hd]
  · intro hfresh
    rw [hrun]
    exact ordSet_of_fresh orders ⟨pyTake u 20, jget data "bookId", jget data "customerName"⟩ hfresh

/-- C9 witness: fresh UUID, empty initial order collection. -/
theorem c9_id_generation_amended_witness :
    ((submit_order (some "Bearer tok1") [⟨"tok1", .str "e", .str "n"⟩]
        [⟨1, "A", "fiction", true, []⟩] []
        (some [("bookId", .num 1), ("customerName", .str "Ann")])
        "99d93a74-a783-4f00-8e95-8a4c38b5a520").resp =
      .success 201 (pyTake "99d93a74-a783-4f00-8e95-8a4c38b5a520" 20) ∧
    (pyTake "99d93a74-a783-4f00-8e95-8a4c38b5a520" 20).length = 20 ∧
    (pyTake "99d93a74-a783-4f00-8e95-8a4c38b5a520" 20 ∉
        ([] : List Order).map Order.id →
      (submit_order (some "Bearer tok1") [⟨"tok1", .str "e", .str "n"⟩]
          [⟨1, "A", "fiction", true, []⟩] []
          (some [("bookId", .num 1), ("customerName", .str "Ann")])
          "99d93a74-a783-4f00-8e95-8a4c38b5a520").orders =
        [] ++ [⟨pyTake "99d93a74-a783-4f00-8e95-8a4c38b5a520" 20,
               jget [("bookId", .num 1), ("customerName", .str "Ann")] "bookId",
               jget [("bookId", .num 1), ("customerName", .str "Ann")] "customerName"⟩])) :=
  c9_id_generation_amended (some "Bearer tok1") [⟨"tok1", .str "e", .str "n"⟩]
    [⟨1, "A", "fiction", true, []⟩] []
    [("bookId", .num 1), ("customerName", .str "Ann")]
    "99d93a74-a783-4f00-8e95-8a4c38b5a520" "tok1" ⟨1, "A", "fiction", true, []⟩
    (by decide) (by decide) (by decide) (by decide) (by decide) (by decide)

/-- C2: for every order endpoint (`submit_order`, `get_orders`, `get_order`,
`update_order`, `delete_order`): a missing `Authorization` header or one not
using the Bearer scheme is answered 401 `"Authorization header required."`,
and a Bearer header whose (stripped) token is not in the freshly reloaded
client registry is answered 401 `"Invalid or missing token."` (the source
messages carry a trailing period). -/
theorem c2_auth_errors
    (a : Option String) (clients : List Client) (books : List Book)
    (orders : List Order) (body : Option JBody) (ubody : JBody) (u oid : String) :
    ((∀ s, a = some s → pyStartswith s "Bearer " = false) →
      ((submit_order a clients books orders body u).resp =
          .excErr 401 "Authorization header required." ∧
       get_orders a clients orders = .excErr 401 "Authorization header required." ∧
       get_order oid a clients orders = .excErr 401 "Authorization header required." ∧
       (update_order oid a clients orders ubody).resp =
          .excErr 401 "Authorization header required." ∧
       (delete_order oid a clients orders).resp =
          .excErr 401 "Authorization header required.")) ∧
    (∀ s, a = some s → pyStartswith s "Bearer " = true →
      clientGet clients (pyStrip (pySplitOnceTail s)) = none →
      ((submit_order a clients books orders body u).resp =
          .excErr 401 "Invalid or missing token." ∧
       get_orders a clients orders = .excErr 401 "Invalid or missing token." ∧
       get_order oid a clients orders = .excErr 401 "Invalid or missing token." ∧
       (update_order oid a clients orders ubody).resp =
          .excErr 401 "Invalid or missing token." ∧
       (delete_order oid a clients orders).resp =
          .excErr 401 "Invalid or missing token.")) := by
  constructor
  · intro h
    have ha := authCheck_missing a clients h
    exact ⟨by simp [submit_order, ha], by simp [get_orders, ha],
      by simp [get_order, ha], by simp [update_order, ha],
      by simp [delete_order, ha]⟩
  · intro s hs h1 h2
    subst hs
    have ha := authCheck_unknown s clients h1 h2
    exact ⟨by simp [submit_order, ha], by simp [get_orders, ha],
      by simp [get_order, ha], by simp [update_order, ha],
      by simp [delete_order, ha]⟩

/-- C2 witness: a missing header and an unknown Bearer token against an
empty registry. -/
theorem c2_auth_errors_witness :
    ((submit_order none [] [] [] none "u").resp =
        .excErr 401 "Authorization header required." ∧
     get_orders none [] [] = .excErr 401 "Authorization header required." ∧
     get_order "o1" none [] [] = .excErr 401 "Authorization header required." ∧
     (update_order "o1" none [] [] []).resp =
        .excErr 401 "Authorization header required." ∧
     (delete_order "o1" none [] []).resp =
        .excErr 401 "Authorization header required.") ∧
    ((submit_order (some "Bearer zzz") [] [] [] none "u").resp =
        .excErr 401 "Invalid or missing token." ∧
     get_orders (some "Bearer zzz") [] [] = .excErr 401 "Invalid or missing token." ∧
     get_order "o1" (some "Bearer zzz") [] [] =
        .excErr 401 "Invalid or missing token." ∧
     (update_order "o1" (some "Bearer zzz") [] [] []).resp =
        .excErr 401 "Invalid or missing token." ∧
     (delete_order "o1" (some "Bearer zzz") [] []).resp =
        .excErr 401 "Invalid or missing token.") :=
  ⟨(c2_auth_errors none [] [] [] none [] "u" "o1").1
      (fun s hs => by cases hs),
   (c2_auth_errors (some "Bearer zzz") [] [] [] none [] "u" "o1").2
      "Bearer zzz" rfl (by decide) (by decide)⟩

/-- C1: every authenticated order submission that succeeds stores the order:
the body parsed, and the created order is retrievable via `get_order` under
the same id with exactly the submitted `bookId` and `customerName`, and it
appears in the sequence returned by `get_orders`. -/
theorem c1_order_roundtrip
    (a : Option String) (clients : List Client) (books : List Book)
    (orders : List Order) (body : Option JBody) (u oid : String)
    (hs : (submit_order a clients books orders body u).resp = .success 201 oid) :
    ∃ data, body = some data ∧
      get_order oid a clients (submit_order a clients books orders body u).orders =
        .success 200 ⟨oid, jget data "bookId", jget data "customerName"⟩ ∧
      get_orders a clients (submit_order a clients books orders body u).orders =
        .success 200 (submit_order a clients books orders body u).orders ∧
      (⟨oid, jget data "bookId", jget data "customerName"⟩ : Order) ∈
        (submit_order a clients books orders body u).orders := by
  rcases h1 : authCheck a clients with e | tok
  · simp [submit_order, h1] at hs
  · cases body with
    | none => simp [submit_order, h1] at hs
    | some data =>
      cases hb : truthy (jget data "bookId") with
      | false => simp [submit_order, h1, hb] at hs
      | true =>
        cases hc : truthy (jget data "customerName") with
        | false => simp [submit_order, h1, hb, hc] at hs
        | true =>
          rcases hfind : books.find? (fun b => pyEq (.num b.id) (jget data "bookId"))
            with _ | book
          · simp [submit_order, h1, hb, hc, hfind] at hs
          · cases hav : book.available with
            | false => simp [submit_order, h1, hb, hc, hfind, hav] at hs
            | true =>
              have hrun : submit_order a clients books orders (some data) u =
                  { resp := .success 201 (pyTake u 20),
                    orders := ordSet orders
                      ⟨pyTake u 20, jget data "bookId", jget data "customerName"⟩,
                    saved := true } := by
                simp [submit_order, h1, hb, hc, hfind, hav]
              rw [hrun] at hs
              simp only [HResult.success.injEq, true_and] at hs
              obtain rfl : oid = pyTake u 20 := hs.symm
              refine ⟨data, rfl, ?_, ?_, ?_⟩
              · rw [hrun]
                simp only [get_order, h1]
                rw [show pyTake u 20 =
                    (Order.mk (pyTake u 20) (jget data "bookId")
                      (jget data "customerName")).id from rfl,
                  ordGet_ordSet_self]
              · rw [hrun]
                simp [get_orders, h1]
              · rw [hrun]
                exact mem_ordSet_self orders _

/-- C1 witness: concrete successful submission round-trips. -/
theorem c1_order_roundtrip_witness :
    ∃ data, (some [("bookId", JVal.num 1), ("customerName", JVal.str "Ann")] :
        Option JBody) = some data ∧
      get_order "99d93a74-a783-4f00-8" (some "Bearer tok1")
          [⟨"tok1", .str "e", .str "n"⟩]
          (submit_order (some "Bearer tok1") [⟨"tok1", .str "e", .str "n"⟩]
            [⟨1, "A", "fiction", true, []⟩] []
            (some [("bookId", .num 1), ("customerName", .str "Ann")])
            "99d93a74-a783-4f00-8e95-8a4c38b5a520").orders =
        .success 200 ⟨"99d93a74-a783-4f00-8", jget data "bookId",
          jget data "customerName"⟩ ∧
      get_orders (some "Bearer tok1") [⟨"tok1", .str "e", .str "n"⟩]
          (submit_order (some "Bearer tok1") [⟨"tok1", .str "e", .str "n"⟩]
            [⟨1, "A", "fiction", true, []⟩] []
            (some [("bookId", .num 1), ("customerName", .str "Ann")])
            "99d93a74-a783-4f00-8e95-8a4c38b5a520").orders =
        .success 200 (submit_order (some "Bearer tok1")
            [⟨"tok1", .str "e", .str "n"⟩] [⟨1, "A", "fiction", true, []⟩] []
            (some [("bookId", .num 1), ("customerName", .str "Ann")])
            "99d93a74-a783-4f00-8e95-8a4c38b5a520").orders ∧
      (⟨"99d93a74-a783-4f00-8", jget data "bookId", jget data "customerName"⟩ :
          Order) ∈
        (submit_order (some "Bearer tok1") [⟨"tok1", .str "e", .str "n"⟩]
            [⟨1, "A", "fiction", true, []⟩] []
            (some [("bookId", .num 1), ("customerName", .str "Ann")])
            "99d93a74-a783-4f00-8e95-8a4c38b5a520").orders :=
  c1_order_roundtrip (some "Bearer tok1") [⟨"tok1", .str "e", .str "n"⟩]
    [⟨1, "A", "fiction", true, []⟩] []
    (some [("bookId", .num 1), ("customerName", .str "Ann")])
    "99d93a74-a783-4f00-8e95-8a4c38b5a520" "99d93a74-a783-4f00-8" (by decide)

/-- C4: with both fields truthy and no already-registered client carrying the
email, the first registration succeeds (response `{"accessToken": token}`,
FastAPI default status 200) and persists the registry; a second registration
with the same `clientEmail` is rejected with HTTP 409 and leaves the stored
client collection unchanged (nothing persisted). -/
theorem c4_duplicate_email
    (clients : List Client) (b1 b2 : JBody) (t1 t2 : String)
    (he : jget b2 "clientEmail" = jget b1 "clientEmail")
    (h1e : truthy (jget b1 "clientEmail") = true)
    (h1n : truthy (jget b1 "clientName") = true)
    (h2n : truthy (jget b2 "clientName") = true)
    (hfresh : clients.any (fun c => pyEq c.clientEmail (jget b1 "clientEmail")) = false) :
    (register_client clients b1 t1).resp = .success 200 t1 ∧
    (register_client clients b1 t1).saved = true ∧
    register_client (register_client clients b1 t1).clients b2 t2 =
      { resp := .excErr 409 "API client already registered.",
        clients := (register_client clients b1 t1).clients, saved := false } := by
  have hrun1 : register_client clients b1 t1 =
      { resp := .success 200 t1,
        clients := clientSet clients
          ⟨t1, jget b1 "clientEmail", jget b1 "clientName"⟩,
        saved := true } := by
    simp [register_client, h1e, h1n, hfresh]
  have h2e : truthy (jget b2 "clientEmail") = true := by rw [he]; exact h1e
  have hany : (clientSet clients ⟨t1, jget b1 "clientEmail", jget b1 "clientName"⟩).any
      (fun c => pyEq c.clientEmail (jget b2 "clientEmail")) = true := by
    rw [he]
    exact List.any_eq_true.mpr
      ⟨⟨t1, jget b1 "clientEmail", jget b1 "clientName"⟩,
       mem_clientSet_self clients _, pyEq_refl _⟩
  refine ⟨by rw [hrun1], by rw [hrun1], ?_⟩
  rw [hrun1]
  simp [register_client, h2e, h2n, hany]

/-- C4 witness: two registrations of `a@b.c` into an empty registry. -/
theorem c4_duplicate_email_witness :
    (register_client [] [("clientEmail", JVal.str "a@b.c"), ("clientName", JVal.str "Ann")]
        "t1").resp = .success 200 "t1" ∧
    (register_client [] [("clientEmail", JVal.str "a@b.c"), ("clientName", JVal.str "Ann")]
        "t1").saved = true ∧
    register_client
        (register_client [] [("clientEmail", JVal.str "a@b.c"), ("clientName", JVal.str "Ann")]
          "t1").clients
        [("clientEmail", JVal.str "a@b.c"), ("clientName", JVal.str "Zed")] "t2" =
      { resp := .excErr 409 "API client already registered.",
        clients := (register_client []
          [("clientEmail", JVal.str "a@b.c"), ("clientName", JVal.str "Ann")]
          "t1").clients,
        saved := false } :=
  c4_duplicate_email [] [("clientEmail", .str "a@b.c"), ("clientName", .str "Ann")]
    [("clientEmail", .str "a@b.c"), ("clientName", .str "Zed")] "t1" "t2"
    (by decide) (by decide) (by decide) (by decide) (by decide)

/-- C7: deleting an existing order (authenticated, distinct stored ids as a
dict guarantees) answers HTTP 204 with the empty JSON object as content,
removes the order and persists the collection; a second delete of the same id
is answered HTTP 404 because the id is now absent, leaving the collection
untouched and unpersisted. -/
theorem c7_delete_twice
    (a : Option String) (clients : List Client) (orders : List Order)
    (oid tok : String) (o : Order)
    (hauth : authCheck a clients = .ok tok)
    (hget : ordGet orders oid = some o)
    (hnodup : (orders.map Order.id).Nodup) :
    delete_order oid a clients orders =
      { resp := .success 204 [], orders := ordDel orders oid, saved := true } ∧
    ordGet (ordDel orders oid) oid = none ∧
    delete_order oid a clients (ordDel orders oid) =
      { resp := .excErr 404 "Order not found.",
        orders := ordDel orders oid, saved := false } := by
  have hgone : ordGet (ordDel orders oid) oid = none :=
    ordGet_ordDel_self orders oid hnodup
  exact ⟨by simp [delete_order, hauth, hget], hgone,
    by simp [delete_order, hauth, hgone]⟩

/-- C7 witness: delete order `o1` twice. -/
theorem c7_delete_twice_witness :
    delete_order "o1" (some "Bearer tok1") [⟨"tok1", .str "e", .str "n"⟩]
        [⟨"o1", .num 1, .str "Bob"⟩] =
      { resp := .success 204 [],
        orders := ordDel [⟨"o1", .num 1, .str "Bob"⟩] "o1", saved := true } ∧
    ordGet (ordDel [⟨"o1", .num 1, .str "Bob"⟩] "o1") "o1" = none ∧
    delete_order "o1" (some "Bearer tok1") [⟨"tok1", .str "e", .str "n"⟩]
        (ordDel [⟨"o1", .num 1, .str "Bob"⟩] "o1") =
      { resp := .excErr 404 "Order not found.",
        orders := ordDel [⟨"o1", .num 1, .str "Bob"⟩] "o1", saved := false } :=
  c7_delete_twice (some "Bearer tok1") [⟨"tok1", .str "e", .str "n"⟩]
    [⟨"o1", .num 1, .str "Bob"⟩] "o1" "tok1" ⟨"o1", .num 1, .str "Bob"⟩
    (by decide) (by decide) (by decide)

/-- C8: updating an existing order (authenticated): with an absent or falsy
`customerName` in the body the order and the whole collection are left
completely unchanged, nothing is persisted, and the response is still HTTP
200 with the order; with a truthy `customerName` only that field is
overwritten — the response carries `⟨o.id, o.bookId, newName⟩`, the stored
entry under the same id is exactly that order, every other id reads back
unchanged, and the collection is persisted. -/
theorem c8_update_frame
    (a : Option String) (clients : List Client) (orders : List Order)
    (oid tok : String) (o : Order) (body : JBody)
    (hauth : authCheck a clients = .ok tok)
    (hget : ordGet orders oid = some o) :
    (truthy (jget body "customerName") = false →
      update_order oid a clients orders body =
        { resp := .success 200 o, orders := orders, saved := false }) ∧
    (truthy (jget body "customerName") = true →
      (update_order oid a clients orders body).resp =
        .success 200 ⟨o.id, o.bookId, jget body "customerName"⟩ ∧
      (update_order oid a clients orders body).saved = true ∧
      ordGet (update_order oid a clients orders body).orders oid =
        some ⟨o.id, o.bookId, jget body "customerName"⟩ ∧
      (∀ j, j ≠ oid →
        ordGet (update_order oid a clients orders body).orders j =
          ordGet orders j)) := by
  have hid : o.id = oid := ordGet_id orders oid o hget
  constructor
  · intro hcn
    simp [update_order, hauth, hget, hcn]
  · intro hcn
    have hrun : update_order oid a clients orders body =
        { resp := .success 200 ⟨o.id, o.bookId, jget body "customerName"⟩,
          orders := ordSet orders ⟨o.id, o.bookId, jget body "customerName"⟩,
          saved := true } := by
      simp [update_order, hauth, hget, hcn]
    refine ⟨by rw [hrun], by rw [hrun], ?_, ?_⟩
    · rw [hrun]
      show ordGet (ordSet orders ⟨o.id, o.bookId, jget body "customerName"⟩) oid =
        some ⟨o.id, o.bookId, jget body "customerName"⟩
      rw [← hid]
      exact ordGet_ordSet_self orders ⟨o.id, o.bookId, jget body "customerName"⟩
    · intro j hj
      rw [hrun]
      exact ordGet_ordSet_ne orders ⟨o.id, o.bookId, jget body "customerName"⟩ j
        (by simpa [hid] using hj)

/-- C8 witness: a body without `customerName` and a body with one. -/
theorem c8_update_frame_witness :
    ((truthy (jget ([] : JBody) "customerName") = false →
      update_order "o1" (some "Bearer tok1") [⟨"tok1", .str "e", .str "n"⟩]
          [⟨"o1", .num 1, .str "Bob"⟩] [] =
        { resp := .success 200 ⟨"o1", .num 1, .str "Bob"⟩,
          orders := [⟨"o1", .num 1, .str "Bob"⟩], saved := false }) ∧
     (truthy (jget ([] : JBody) "customerName") = true →
      (update_order "o1" (some "Bearer tok1") [⟨"tok1", .str "e", .str "n"⟩]
          [⟨"o1", .num 1, .str "Bob"⟩] []).resp =
        .success 200 ⟨"o1", .num 1, jget ([] : JBody) "customerName"⟩ ∧
      (update_order "o1" (some "Bearer tok1") [⟨"tok1", .str "e", .str "n"⟩]
          [⟨"o1", .num 1, .str "Bob"⟩] []).saved = true ∧
      ordGet (update_order "o1" (some "Bearer tok1") [⟨"tok1", .str "e", .str "n"⟩]
          [⟨"o1", .num 1, .str "Bob"⟩] []).orders "o1" =
        some ⟨"o1", .num 1, jget ([] : JBody) "customerName"⟩ ∧
      (∀ j, j ≠ "o1" →
        ordGet (update_order "o1" (some "Bearer tok1") [⟨"tok1", .str "e", .str "n"⟩]
            [⟨"o1", .num 1, .str "Bob"⟩] []).orders j =
          ordGet [⟨"o1", .num 1, .str "Bob"⟩] j))) ∧
    ((truthy (jget [("customerName", JVal.str "Yan")] "customerName") = false →
      update_order "o1" (some "Bearer tok1") [⟨"tok1", .str "e", .str "n"⟩]
          [⟨"o1", .num 1, .str "Bob"⟩] [("customerName", JVal.str "Yan")] =
        { resp := .success 200 ⟨"o1", .num 1, .str "Bob"⟩,
          orders := [⟨"o1", .num 1, .str "Bob"⟩], saved := false }) ∧
     (truthy (jget [("customerName", JVal.str "Yan")] "customerName") = true →
      (update_order "o1" (some "Bearer tok1") [⟨"tok1", .str "e", .str "n"⟩]
          [⟨"o1", .num 1, .str "Bob"⟩] [("customerName", JVal.str "Yan")]).resp =
        .success 200 ⟨"o1", .num 1, jget [("customerName", JVal.str "Yan")] "customerName"⟩ ∧
      (update_order "o1" (some "Bearer tok1") [⟨"tok1", .str "e", .str "n"⟩]
          [⟨"o1", .num 1, .str "Bob"⟩] [("customerName", JVal.str "Yan")]).saved = true ∧
      ordGet (update_order "o1" (some "Bearer tok1") [⟨"tok1", .str "e", .str "n"⟩]
          [⟨"o1", .num 1, .str "Bob"⟩] [("customerName", JVal.str "Yan")]).orders "o1" =
        some ⟨"o1", .num 1, jget [("customerName", JVal.str "Yan")] "customerName"⟩ ∧
      (∀ j, j ≠ "o1" →
        ordGet (update_order "o1" (some "Bearer tok1") [⟨"tok1", .str "e", .str "n"⟩]
            [⟨"o1", .num 1, .str "Bob"⟩] [("customerName", JVal.str "Yan")]).orders j =
          ordGet [⟨"o1", .num 1, .str "Bob"⟩] j))) :=
  ⟨c8_update_frame (some "Bearer tok1") [⟨"tok1", .str "e", .str "n"⟩]
      [⟨"o1", .num 1, .str "Bob"⟩] "o1" "tok1" ⟨"o1", .num 1, .str "Bob"⟩ []
      (by decide) (by decide),
   c8_update_frame (some "Bearer tok1") [⟨"tok1", .str "e", .str "n"⟩]
      [⟨"o1", .num 1, .str "Bob"⟩] "o1" "tok1" ⟨"o1", .num 1, .str "Bob"⟩
      [("customerName", JVal.str "Yan")] (by decide) (by decide)⟩

/-- Truncation only keeps books from the input. -/
theorem truncateByLimit_subset (limit? : Option Int) (books : List Book)
    (b : Book) (h : b ∈ truncateByLimit limit? books) : b ∈ books := by
  cases limit? with
  | none => exact h
  | some l =>
    simp only [truncateByLimit] at h
    by_cases h0 : (l != 0) = true
    · rw [if_pos h0] at h
      exact List.take_subset _ _ h
    · rw [if_neg h0] at h
      exact h

/-- Filtering only keeps books from the input. -/
theorem filterByType_subset (type? : Option String) (books : List Book)
    (b : Book) (h : b ∈ filterByType type? books) : b ∈ books := by
  cases type? with
  | none => exact h
  | some t =>
    simp only [filterByType] at h
    by_cases h0 : (t != "") = true
    · rw [if_pos h0] at h
      exact (List.mem_filter.mp h).1
    · rw [if_neg h0] at h
      exact h

/-- C5: a `GET /books` with `type` absent or one of the valid values and
`limit` absent or in `[1, 20]` succeeds with HTTP 200; the result contains
only (projections of) catalog books whose type matches a given `type`, is all
books when both parameters are absent, is truncated to at most `limit`
entries, and every returned record is the `projectBasic` image of a catalog
book — a `BasicBook` consists of exactly the fields
`{id, name, type, available}`, so extended fields never appear. -/
theorem c5_books_filter_project
    (type? : Option String) (limit? : Option Int) (books : List Book)
    (ht : type? = none ∨ type? = some "fiction" ∨ type? = some "non-fiction")
    (hl : ∀ l, limit? = some l → 1 ≤ l ∧ l ≤ 20) :
    ∃ bl, get_books type? limit? books = .success 200 bl ∧
      (∀ t, type? = some t → ∀ b ∈ bl, b.type = t) ∧
      (type? = none → limit? = none → bl = books.map projectBasic) ∧
      (∀ l, limit? = some l → bl.length ≤ l.toNat) ∧
      (∀ b ∈ bl, ∃ src ∈ books, b = projectBasic src) := by
  have hTI : typeInvalid type? = false := by
    rcases ht with rfl | rfl | rfl <;> decide
  have hLI : limitInvalid limit? = false := by
    cases hlim : limit? with
    | none => rfl
    | some l =>
      obtain ⟨h1, h2⟩ := hl l hlim
      simp [limitInvalid, h1, h2]
  refine ⟨(truncateByLimit limit? (filterByType type? books)).map projectBasic,
    by simp [get_books, hTI, hLI], ?_, ?_, ?_, ?_⟩
  · rintro t rfl b hb
    obtain ⟨src, hsrc, rfl⟩ := List.mem_map.mp hb
    have hsrc2 : src ∈ filterByType (some t) books :=
      truncateByLimit_subset limit? _ src hsrc
    have hne : (t != "") = true := by
      rcases ht with h | h | h <;> simp at h <;> subst h <;> decide
    simp only [filterByType, if_pos hne] at hsrc2
    have := (List.mem_filter.mp hsrc2).2
    simpa [projectBasic] using beq_iff_eq.mp this
  · rintro rfl rfl
    simp [truncateByLimit, filterByType]
  · intro l hlim
    obtain ⟨h1, h2⟩ := hl l hlim
    rw [hlim]
    have h0 : (l != 0) = true := by
      have : l ≠ 0 := by omega
      simpa using this
    simp only [truncateByLimit, if_pos h0, List.length_map]
    exact List.length_take_le _ _
  · intro b hb
    obtain ⟨src, hsrc, rfl⟩ := List.mem_map.mp hb
    exact ⟨src, filterByType_subset type? books src
      (truncateByLimit_subset limit? _ src hsrc), rfl⟩

/-- C5 witness: `type = fiction`, `limit = 1` over a three-book catalog. -/
theorem c5_books_filter_project_witness :
    ∃ bl, get_books (some "fiction") (some 1)
        [⟨1, "A", "fiction", true, []⟩, ⟨2, "B", "non-fiction", true, []⟩,
         ⟨3, "C", "fiction", false, []⟩] = .success 200 bl ∧
      (∀ t, (some "fiction" : Option String) = some t → ∀ b ∈ bl, b.type = t) ∧
      ((some "fiction" : Option String) = none → (some 1 : Option Int) = none →
        bl = [⟨1, "A", "fiction", true, []⟩, ⟨2, "B", "non-fiction", true, []⟩,
              ⟨3, "C", "fiction", false, []⟩].map projectBasic) ∧
      (∀ l, (some 1 : Option Int) = some l → bl.length ≤ l.toNat) ∧
      (∀ b ∈ bl, ∃ src ∈ [⟨1, "A", "fiction", true, []⟩,
          ⟨2, "B", "non-fiction", true, []⟩, ⟨3, "C", "fiction", false, []⟩],
        b = projectBasic src) :=
  c5_books_filter_project (some "fiction") (some 1)
    [⟨1, "A", "fiction", true, []⟩, ⟨2, "B", "non-fiction", true, []⟩,
     ⟨3, "C", "fiction", false, []⟩]
    (Or.inr (Or.inl rfl)) (fun l h => by
      simp only [Option.some.injEq] at h
      subst h
      exact ⟨by decide, by decide⟩)

/-- C6 counterexample: the claim says a present `type` outside
`{fiction, non-fiction}` is answered 400, but an empty string is such a value
(`"" ∉ allowed_types`) and is falsy in Python, so `GET /books?type=` skips
both the validation and the filter and succeeds with all books. -/
theorem c6_empty_type_counterexample :
    allowed_types.contains "" = false ∧
    get_books (some "") none [⟨1, "A", "fiction", true, []⟩] =
      .success 200 [⟨1, "A", "fiction", true⟩] := by
  constructor <;> decide

/-- C6 (amended): a present and NON-EMPTY `type` outside
`{fiction, non-fiction}` is answered 400 with the message naming the allowed
set (an empty `type` value is falsy in Python and is treated as absent); a
`limit` outside `[1, 20]` is answered 400 (with the limit message, or the
type message when the type is also invalid — the type check runs first); and
a success under `limit = N`, `1 ≤ N ≤ 20`, returns at most `N` books. -/
theorem c6_books_validation_amended :
    (∀ (t : String) (limit? : Option Int) (books : List Book),
      t ≠ "" → allowed_types.contains t = false →
      get_books (some t) limit? books = .jsonErr 400
        "Invalid value for query parameter 'type'. Must be one of: fiction, non-fiction.") ∧
    (∀ (type? : Option String) (l : Int) (books : List Book),
      ¬(1 ≤ l ∧ l ≤ 20) →
      ∃ m, get_books type? (some l) books = .jsonErr 400 m) ∧
    (∀ (type? : Option String) (l : Int) (books : List Book)
      (c : Nat) (bl : List BasicBook),
      1 ≤ l → l ≤ 20 →
      get_books type? (some l) books = .success c bl → bl.length ≤ l.toNat) := by
  refine ⟨?_, ?_, ?_⟩
  · intro t limit? books hne hcon
    have hTI : typeInvalid (some t) = true := by
      simp only [typeInvalid]
      rw [hcon]
      simp [hne]
    simp [get_books, hTI]
  · intro type? l books hout
    cases hTI : typeInvalid type? with
    | true =>
      exact ⟨"Invalid value for query parameter 'type'. Must be one of: fiction, non-fiction.",
        by simp [get_books, hTI]⟩
    | false =>
      have hLI : limitInvalid (some l) = true := by
        simp only [limitInvalid, Bool.not_eq_true']
        rcases not_and_or.mp hout with h | h <;> simp [h]
      exact ⟨"Invalid value for query parameter 'limit'. Must be between 1 and 20.",
        by simp [get_books, hTI, hLI]⟩
  · intro type? l books c bl h1 h2 hrun
    cases hTI : typeInvalid type? with
    | true => simp [get_books, hTI] at hrun
    | false =>
      have hLI : limitInvalid (some l) = false := by
        simp [limitInvalid, h1, h2]
      simp only [get_books, hTI, hLI, Bool.false_eq_true, if_false] at hrun
      obtain ⟨hc, hbl⟩ : 200 = c ∧
          List.map projectBasic (truncateByLimit (some l) (filterByType type? books)) = bl := by
        simpa using hrun
      rw [← hbl]
      have h0 : (l != 0) = true := by
        have : l ≠ 0 := by omega
        simpa using this
      simp only [truncateByLimit, if_pos h0, List.length_map]
      exact List.length_take_le _ _

/-- C6 witness: `type = sciencefiction` → 400 with the type message;
`limit = 21` → 400; `limit = 2` over three books returns at most 2. -/
theorem c6_books_validation_amended_witness :
    (get_books (some "sciencefiction") none [⟨1, "A", "fiction", true, []⟩] =
      .jsonErr 400
        "Invalid value for query parameter 'type'. Must be one of: fiction, non-fiction.") ∧
    (∃ m, get_books none (some 21) [⟨1, "A", "fiction", true, []⟩] =
      .jsonErr 400 m) ∧
    ([⟨1, "A", "fiction", true⟩, ⟨2, "B", "fiction", true⟩] :
      List BasicBook).length ≤ (2 : Int).toNat := by
  refine ⟨?_, ?_, ?_⟩
  · exact (c6_books_validation_amended).1 "sciencefiction" none
      [⟨1, "A", "fiction", true, []⟩] (by decide) (by decide)
  · exact (c6_books_validation_amended).2.1 none 21
      [⟨1, "A", "fiction", true, []⟩] (by omega)
  · exact (c6_books_validation_amended).2.2 none 2
      [⟨1, "A", "fiction", true, []⟩, ⟨2, "B", "fiction", true, []⟩,
       ⟨3, "C", "fiction", true, []⟩] 200
      [⟨1, "A", "fiction", true⟩, ⟨2, "B", "fiction", true⟩]
      (by decide) (by decide) (by decide)

end SimpleBooks
